import Mathlib

/-!
Verification of the Azure chatbot backend (FastAPI + Cosmos DB + Azure
Cognitive Search).  Shallow embedding of the relevant parts of
`app.py`, `utils/llm_invoke.py` and `utils/cosmos_connection.py`.

Modelling conventions:
 - Python floats are idealised as rationals (`ℚ`).
 - Python dicts with a fixed key set become structures; optional keys
   (`dict.get(key, default)`) become `Option` fields read with `getD`.
 - External I/O (Cosmos queries, the search oracle, the LLM completion
   call) is passed in as explicit parameters: a query either yields a
   value (`Except.ok`) or raises (`Except.error`).
 - Nondeterministic values produced inside a handler (uuid4, utcnow,
   elapsed-time measurement) are passed in as explicit parameters.
-/

deriving instance DecidableEq for Except

namespace AzureChatbot

/-- One source-attribution entry as built by `call_llm_async_with_retry`
(llm_invoke.py lines 189-194): content, the two scores (rounded), and the
storage path. -/
structure Attribution where
  content : String
  search_score : ℚ
  reranker_score : ℚ
  source : String
deriving DecidableEq

/-- One document of the Cosmos container, as written by
`save_message_to_cosmos` in app.py (lines 82-94): id, session_id, user_id,
user_roles, role, content, timestamp, feedback (null until set) and
top_chunks. -/
structure StoredItem where
  id : String
  session_id : String
  user_id : String
  user_roles : List String
  role : String
  content : String
  timestamp : String
  feedback : Option String
  top_chunks : List Attribution
deriving DecidableEq

/-- Request body of the `/update-feedback` route (app.py lines 75-78). -/
structure FeedbackRequest where
  id : String
  feedback : String
  sessionId : String
deriving DecidableEq

/-- Result of the `/update-feedback` handler: either a `JSONResponse` with
an HTTP status code and an error string, or the success payload
`{"messageId": ..., "feedback": ...}`. -/
inductive UFResponse where
  | jsonError (status : Nat) (error : String)
  | ok (messageId : String) (feedback : String)
deriving DecidableEq

/-- The `/update-feedback` handler `update_feedback` (app.py lines
165-189).  `storeOk` models whether the Cosmos query/replace raises (the
`except` branch returning the 500 response); `store` is the container
content, returned updated.  Validation (line 172) happens before any
store access; the lookup is by `id` alone with
`enable_cross_partition_query=True`; `replace_item` rewrites the document
whose id matches. -/
def updateFeedback (storeOk : Bool) (req : FeedbackRequest)
    (store : List StoredItem) : UFResponse × List StoredItem :=
  if req.id = "" ∨ req.feedback ∉ (["positive", "negative"] : List String) ∨
      req.sessionId = "" then
    (UFResponse.jsonError 400 "Invalid input", store)
  else if storeOk = false then
    (UFResponse.jsonError 500 "Failed to update feedback", store)
  else
    match store.filter (fun c => decide (c.id = req.id)) with
    | [] => (UFResponse.jsonError 404 "Message not found in database", store)
    | item :: _ =>
      let item' := { item with feedback := some req.feedback }
      (UFResponse.ok req.id req.feedback,
        store.map (fun c => if c.id = req.id then item' else c))

/-- One row of the session query in `get_latest_session_ids`
(cosmos_connection.py lines 54-58): `SELECT c.session_id, c.timestamp`,
ordered by timestamp descending by the store. -/
structure SessionRow where
  session_id : String
  timestamp : String
deriving DecidableEq

/-- The dedup-and-limit loop of `get_latest_session_ids`
(cosmos_connection.py lines 68-76): walk the rows, append each session id
not seen before, and break as soon as the accumulated list reaches
`limit` — the break test runs after the conditional append.  The `seen`
set of the source always holds exactly the elements of
`unique_sessions`, so membership is tested on the accumulator. -/
def sessionLoop (limit : Nat) : List SessionRow → List String → List String
  | [], uniq => uniq
  | row :: rest, uniq =>
    let uniq' := if row.session_id ∈ uniq then uniq else uniq ++ [row.session_id]
    if limit ≤ uniq'.length then uniq' else sessionLoop limit rest uniq'

/-- `get_latest_session_ids` (cosmos_connection.py lines 49-82): `none`
models the `return None` taken when Cosmos is disabled or the query
raises; otherwise the deduplicated, limited session-id list. -/
def getLatestSessionIds (cosmosEnabled : Bool)
    (queryResult : Except String (List SessionRow)) (limit : Nat) :
    Option (List String) :=
  if cosmosEnabled = false then none
  else
    match queryResult with
    | .error _ => none
    | .ok rows => some (sessionLoop limit rows [])

/-- One row of the per-session message query in
`get_last_messages_from_cosmos` (cosmos_connection.py lines 99-103):
`SELECT c.id, c.role, c.content, c.timestamp`. -/
structure MessageRow where
  id : String
  role : String
  content : String
  timestamp : String
deriving DecidableEq

/-- One element of the list returned by `get_last_messages_from_cosmos`
(cosmos_connection.py lines 118-121): a dict with exactly the keys
`session_id` and `messages`. -/
structure SessionGroup where
  session_id : String
  messages : List MessageRow
deriving DecidableEq

/-- `get_last_messages_from_cosmos` (cosmos_connection.py lines 85-127):
returns `[]` when Cosmos is disabled or no session ids were found
(`if not session_ids` catches both `None` and `[]`); otherwise one
session group per session id whose query succeeded (a failing query is
skipped by the `continue`), messages sorted ascending by timestamp. -/
def getLastMessagesFromCosmos (cosmosEnabled : Bool)
    (sessionQuery : Except String (List SessionRow))
    (messagesQuery : String → Except String (List MessageRow))
    (limit : Nat) : List SessionGroup :=
  if cosmosEnabled = false then []
  else
    match getLatestSessionIds cosmosEnabled sessionQuery limit with
    | none => []
    | some [] => []
    | some (sid :: sids) =>
      (sid :: sids).filterMap (fun s =>
        match messagesQuery s with
        | .error _ => none
        | .ok items =>
          some ⟨s, List.insertionSort (fun a b => a.timestamp ≤ b.timestamp) items⟩)

/-- Modelled from the spec: "Deduplicates session identifiers before
applying the limit".  `dedupExcl seen l` keeps the first occurrence of
each identifier of `l`, in order, skipping identifiers already in
`seen`; the spec-side dedup of a list is `dedupExcl []`. -/
def dedupExcl (seen : List String) : List String → List String
  | [] => []
  | s :: rest =>
    if s ∈ seen then dedupExcl seen rest
    else s :: dedupExcl (seen ++ [s]) rest

/-- One result dict of the Azure Cognitive Search response
(`response_json["value"]` in `query_azure_search`, llm_invoke.py line
55).  Every key read from it is optional (`dict.get` with a default):
`content`, `text`, `@search.score`, `@search.rerankerScore`,
`metadata_storage_path`. -/
structure SearchChunk where
  content : Option String
  text : Option String
  searchScore : Option ℚ
  rerankerScore : Option ℚ
  metadata_storage_path : Option String
deriving DecidableEq

/-- The reranker score read with default 0:
`chunk.get("@search.rerankerScore", 0)`. -/
def rerankD (c : SearchChunk) : ℚ := c.rerankerScore.getD 0

/-- The local post-processing of `query_azure_search` (llm_invoke.py
lines 55-60): sort the oracle's result set by descending reranker score
(Python `sorted` with `reverse=True` is a stable sort; `insertionSort`
is stable in the same sense) and truncate to `top_k`. -/
def queryAzureSearch (results : List SearchChunk) (topK : Nat) : List SearchChunk :=
  (List.insertionSort (fun a b => rerankD b ≤ rerankD a) results).take topK

/-- Observable events of the retry loop in `call_llm_async_with_retry`:
an `asyncio.sleep(delay)` or a completion-call attempt. -/
inductive RetryEvent where
  | sleep (seconds : Nat)
  | attempt (index : Nat)
deriving DecidableEq

/-- The retry loop of `call_llm_async_with_retry` (llm_invoke.py lines
135-210), one iteration per `attempt in range(max_retries)`: sleep first
unless this is attempt 0, call the completion oracle, return the result
on success, re-raise on the last attempt, otherwise record the error and
continue.  The loop counter is encoded structurally: `remaining` is the
number of iterations left (`max_retries - attempt`), so the guard
`attempt < max_retries` becomes `remaining > 0` and the last-attempt
test `attempt >= max_retries - 1` becomes `remaining = 1`, i.e. an inner
count of 0.  `lastError` threads the source's `last_error`; `.ok none`
models the trailing `return None`, reachable only with `max_retries = 0`
because `last_response` is never assigned in the source.  Returns the
emitted event trace alongside the outcome. -/
def retryFrom {E R : Type} (oracle : Nat → Except E R) (delay : Nat) :
    Nat → Nat → Option E → List RetryEvent × Except E (Option R)
  | 0, _, lastError =>
    ([], Option.elim lastError (Except.ok none) (fun e => Except.error e))
  | n + 1, attempt, _lastError =>
    let pre := (if 0 < attempt then [RetryEvent.sleep delay] else []) ++
      [RetryEvent.attempt attempt]
    Except.casesOn (oracle attempt)
      (fun e =>
        if n = 0 then (pre, Except.error e)
        else
          let rest := retryFrom oracle delay n (attempt + 1) (some e)
          (pre ++ rest.1, rest.2))
      (fun r => (pre, Except.ok (some r)))

/-- The event trace the retry loop emits over `remaining` failing
attempts starting at index `attempt`: a sleep before every attempt
except attempt 0, and nothing else. -/
def traceSpan (delay : Nat) : Nat → Nat → List RetryEvent
  | 0, _ => []
  | n + 1, attempt =>
    ((if 0 < attempt then [RetryEvent.sleep delay] else []) ++
      [RetryEvent.attempt attempt]) ++ traceSpan delay n (attempt + 1)

/-- The full expected trace of an exhausted retry loop. -/
def expectedTrace (delay maxRetries : Nat) : List RetryEvent :=
  traceSpan delay maxRetries 0

/-- Number of sleep events in a trace. -/
def sleepCount (trace : List RetryEvent) : Nat :=
  trace.countP (fun e => match e with
    | RetryEvent.sleep _ => true
    | _ => false)

/-- The dict returned by `call_llm_async_with_retry` on success
(llm_invoke.py lines 187-195): the model's answer text and the
re-packaged attribution entries. -/
structure LlmResult where
  response : String
  top_chunks : List Attribution
deriving DecidableEq

/-- Python `round(x, 4)`: rounding to 4 decimal digits, with floats
idealised as rationals. -/
def round4 (x : ℚ) : ℚ := (round (x * 10000) : ℤ) / 10000

/-- One attribution entry (llm_invoke.py lines 189-194): content falls
back from `content` to `text` to the empty string, both scores are read
with default 0 and rounded to 4 decimal digits, the source is the
storage path. -/
def mkAttribution (c : SearchChunk) : Attribution :=
  { content := c.content.getD (c.text.getD "")
    search_score := round4 (c.searchScore.getD 0)
    reranker_score := round4 (rerankD c)
    source := c.metadata_storage_path.getD "" }

/-- The `top_chunks` field of the success dict: the first 2 of the
client-side retrieved chunks (`top_chunks[:2]`), re-packaged. -/
def successTopChunks (topChunks : List SearchChunk) : List Attribution :=
  (topChunks.take 2).map mkAttribution

/-- The generation client `call_llm_async_with_retry` from the search
call on (llm_invoke.py lines 122, 135-210): `searchResults` is the raw
result set of the search oracle (consumed by `query_azure_search` with
`top_k=5`), `oracle i` the outcome of the i-th completion attempt.  The
prompt-assembly phase that precedes the loop (lines 119-133) is modelled
separately by `buildChatPrompt`. -/
def callLlm (searchResults : List SearchChunk)
    (oracle : Nat → Except String String) (delay maxRetries : Nat) :
    List RetryEvent × Except String (Option LlmResult) :=
  let topChunks := queryAzureSearch searchResults 5
  retryFrom (fun i => (oracle i).map (fun respContent =>
      { response := respContent, top_chunks := successTopChunks topChunks }))
    delay maxRetries 0 none

/-- Concrete search-oracle result set of the spec's end-to-end scenario
A: three chunks with reranker scores 0.9, 0.5, 0.2 (already in some
order), with optional fields exercised. -/
def scenarioAChunks : List SearchChunk :=
  [⟨some "doc A", none, some (1/2), some (9/10), some "a.txt"⟩,
   ⟨none, some "doc B", none, some (1/2), none⟩,
   ⟨none, none, some (3/10), some (1/5), some "img.png"⟩]

/-- The success dict the generation client returns on scenario A. -/
def scenarioAResult : LlmResult :=
  { response := "answer"
    top_chunks := [⟨"doc A", 1/2, 9/10, "a.txt"⟩, ⟨"doc B", 0, 1/2, ""⟩] }

/-- A value stored under a key of a session-group dict: the dicts built
at cosmos_connection.py lines 118-121 map `session_id` to a string and
`messages` to a list of message rows. -/
inductive DictVal where
  | s (v : String)
  | msgs (v : List MessageRow)
deriving DecidableEq

/-- Python dict lookup on one element of the history-fetch result: the
dict literal at cosmos_connection.py lines 118-121 has exactly the keys
`session_id` and `messages`, so any other key raises `KeyError`
(`none`). -/
def SessionGroup.lookup (g : SessionGroup) (k : String) : Option DictVal :=
  if k = "session_id" then some (DictVal.s g.session_id)
  else if k = "messages" then some (DictVal.msgs g.messages)
  else none

/-- One entry of the `chat_prompt` message list sent to the completion
call: `{"role": ..., "content": ...}` (llm_invoke.py lines 127-132). -/
structure ChatMsg where
  role : String
  content : String
deriving DecidableEq

/-- String content of a dict value (identity on strings; the non-string
branch is never reached by the code modelled here). -/
def DictVal.asStr : DictVal → String
  | DictVal.s v => v
  | DictVal.msgs _ => ""

/-- The history loop of `call_llm_async_with_retry` (llm_invoke.py lines
128-130): `for msg in cosmos_messages:
chat_prompt.append({"role": msg["role"], "content": msg["content"]})`.
Each iteration looks the keys `role` and `content` up in a session-group
dict; a missing key raises `KeyError`, modelled as `Except.error`. -/
def appendHistory : List SessionGroup → Except String (List ChatMsg)
  | [] => Except.ok []
  | g :: rest =>
    match g.lookup "role" with
    | none => Except.error "KeyError: role"
    | some rv =>
      match g.lookup "content" with
      | none => Except.error "KeyError: content"
      | some cv =>
        (appendHistory rest).map
          (fun tail => ({ role := rv.asStr, content := cv.asStr } : ChatMsg) :: tail)

/-- Assembly of the `chat_prompt` list (llm_invoke.py lines 127-132):
the history turns first (the loop is skipped when the history is empty),
then the single assembled prompt as a `user` message.  A `KeyError`
raised in the loop propagates out of the generation client. -/
def buildChatPrompt (cosmosMessages : List SessionGroup) (fullPrompt : String) :
    Except String (List ChatMsg) :=
  (appendHistory cosmosMessages).map
    (fun hist => hist ++ [({ role := "user", content := fullPrompt } : ChatMsg)])

/-- Request body of the `/chat` route (app.py lines 62-66). -/
structure ChatRequest where
  message : String
  session_id : String
  user_id : String
  user_roles : List String
deriving DecidableEq

/-- The score-only projection of a chunk (app.py lines 53-55). -/
structure ScoreOnly where
  search_score : ℚ
  reranker_score : ℚ
deriving DecidableEq

/-- Response body of the `/chat` route (app.py lines 68-73). -/
structure ChatResponse where
  response : String
  session_id : String
  elapsed_time : ℚ
  first_chunk : Option ScoreOnly
  second_chunk : Option ScoreOnly
deriving DecidableEq

/-- Outcome of the `/chat` handler: the success payload or the
`JSONResponse` with status 500 produced by the catch-all handler
(app.py lines 162-163). -/
inductive ChatOutcome where
  | ok (resp : ChatResponse)
  | jsonError (status : Nat) (error : String)
deriving DecidableEq

/-- Observable events of one `/chat` request, in order: a ledger append
(with the turn's role) or the generation call. -/
inductive ChatEvent where
  | appendTurn (role : String)
  | generationCall
deriving DecidableEq

/-- The user turn written by `save_message_to_cosmos` before generation
(app.py lines 104-112): role `user`, the request's message, no feedback,
no chunks.  `uid` and `ts` stand for the uuid and utcnow value produced
inside the handler. -/
def mkUserTurn (req : ChatRequest) (uid ts : String) : StoredItem :=
  { id := uid
    session_id := req.session_id
    user_id := req.user_id
    user_roles := req.user_roles
    role := "user"
    content := req.message
    timestamp := ts
    feedback := none
    top_chunks := [] }

/-- The assistant turn written after generation (app.py lines 128-137):
role `assistant`, content the response text with the elapsed-time
annotation appended, the attribution chunks attached. -/
def mkAssistantTurn (req : ChatRequest) (r : LlmResult)
    (uid ts elapsedStr : String) : StoredItem :=
  { id := uid
    session_id := req.session_id
    user_id := req.user_id
    user_roles := req.user_roles
    role := "assistant"
    content := r.response ++ "\n\n_⏱️ Response time: " ++ elapsedStr ++ " seconds_"
    timestamp := ts
    feedback := none
    top_chunks := r.top_chunks }

/-- The `/chat` handler `chat` (app.py lines 98-163): append the user
turn, invoke the generation client, then on success append the assistant
turn and build the response with the score-only chunk projections (app.py
lines 139-160).  `gen` is the outcome of `call_llm_async_with_retry`: an
exception (caught by the handler's catch-all, returning the 500
response), Python `None` (only possible with `max_retries = 0`; the
subscription `response_data["response"]` then raises `TypeError`, caught
by the same catch-all), or the success dict.  Nondeterministic values
(uuids, timestamps, measured elapsed time) are passed in.  Returns the
event trace, the final ledger and the handler outcome. -/
def chat (req : ChatRequest) (gen : Except String (Option LlmResult))
    (userUuid userTs assistantUuid assistantTs elapsedStr : String)
    (elapsed : ℚ) (store : List StoredItem) :
    List ChatEvent × List StoredItem × ChatOutcome :=
  let store1 := store ++ [mkUserTurn req userUuid userTs]
  match gen with
  | Except.error e =>
    ([ChatEvent.appendTurn "user", ChatEvent.generationCall], store1,
      ChatOutcome.jsonError 500 e)
  | Except.ok none =>
    ([ChatEvent.appendTurn "user", ChatEvent.generationCall], store1,
      ChatOutcome.jsonError 500 "TypeError: NoneType")
  | Except.ok (some r) =>
    let store2 := store1 ++ [mkAssistantTurn req r assistantUuid assistantTs elapsedStr]
    let firstChunk := r.top_chunks.head?.map
      (fun a => ({ search_score := a.search_score
                   reranker_score := a.reranker_score } : ScoreOnly))
    let secondChunk := (r.top_chunks.drop 1).head?.map
      (fun a => ({ search_score := a.search_score
                   reranker_score := a.reranker_score } : ScoreOnly))
    ([ChatEvent.appendTurn "user", ChatEvent.generationCall,
        ChatEvent.appendTurn "assistant"],
      store2,
      ChatOutcome.ok
        { response := r.response
          session_id := req.session_id
          elapsed_time := elapsed
          first_chunk := firstChunk
          second_chunk := secondChunk })

/-- Rounding to 4 decimal digits is monotone, so it preserves the
descending order of reranker scores. -/
theorem round4_mono {x y : ℚ} (h : x ≤ y) : round4 x ≤ round4 y := by
  unfold round4
  have h2 : round (x * 10000) ≤ round (y * 10000) := by
    rw [round_eq, round_eq]
    exact Int.floor_le_floor (by linarith)
  have h3 : ((round (x * 10000) : ℤ) : ℚ) ≤ ((round (y * 10000) : ℤ) : ℚ) := by
    exact_mod_cast h2
  have hpos : (0 : ℚ) ≤ 10000 := by norm_num
  exact div_le_div_of_nonneg_right h3 hpos

/-- Unfolding helper: when validation passes and the filter finds a first
item, `update_feedback` returns the success payload and rewrites every
document whose id matches. -/
theorem updateFeedback_found (req : FeedbackRequest) (store : List StoredItem)
    (item : StoredItem) (rest : List StoredItem)
    (hc : ¬(req.id = "" ∨
      req.feedback ∉ (["positive", "negative"] : List String) ∨
      req.sessionId = ""))
    (hfilter : store.filter (fun c => decide (c.id = req.id)) = item :: rest) :
    updateFeedback true req store =
      (UFResponse.ok req.id req.feedback,
        store.map (fun c =>
          if c.id = req.id then { item with feedback := some req.feedback }
          else c)) := by
  simp only [updateFeedback, if_neg hc, hfilter]
  rfl

/-- The session loop, entered with fewer accumulated ids than the limit,
computes the order-preserving dedup of all row ids (past the
accumulator) and then truncates to the limit. -/
theorem sessionLoop_eq_dedup_take (limit : Nat) (rows : List SessionRow) :
    ∀ uniq : List String, uniq.length < limit →
      sessionLoop limit rows uniq =
        (uniq ++ dedupExcl uniq (rows.map (fun r => r.session_id))).take limit := by
  induction rows with
  | nil =>
    intro uniq h
    simp only [sessionLoop, List.map_nil, dedupExcl, List.append_nil]
    exact (List.take_of_length_le (Nat.le_of_lt h)).symm
  | cons row rest ih =>
    intro uniq h
    by_cases hmem : row.session_id ∈ uniq
    · have hbr : ¬limit ≤ uniq.length := Nat.not_le_of_lt h
      simp only [sessionLoop, if_pos hmem, if_neg hbr, List.map_cons, dedupExcl]
      exact ih uniq h
    · simp only [sessionLoop, if_neg hmem, List.map_cons, dedupExcl]
      by_cases hbr : limit ≤ (uniq ++ [row.session_id]).length
      · have hlim : limit = (uniq ++ [row.session_id]).length := by
          simp only [List.length_append, List.length_singleton] at hbr ⊢
          omega
        rw [if_pos hbr]
        have : uniq ++ row.session_id ::
            dedupExcl (uniq ++ [row.session_id]) (rest.map (fun r => r.session_id)) =
            (uniq ++ [row.session_id]) ++
              dedupExcl (uniq ++ [row.session_id]) (rest.map (fun r => r.session_id)) := by
          simp
        rw [this, hlim, List.take_left]
      · rw [if_neg hbr]
        have hlt : (uniq ++ [row.session_id]).length < limit :=
          Nat.lt_of_not_le hbr
        have := ih (uniq ++ [row.session_id]) hlt
        rw [this]
        congr 1
        simp

/-- `dedupExcl` produces no duplicates and nothing from the excluded
set. -/
theorem dedupExcl_nodup (l : List String) :
    ∀ seen, (dedupExcl seen l).Nodup ∧ ∀ s ∈ dedupExcl seen l, s ∉ seen := by
  induction l with
  | nil => intro seen; simp [dedupExcl]
  | cons a rest ih =>
    intro seen
    by_cases hmem : a ∈ seen
    · simp only [dedupExcl, if_pos hmem]
      exact ih seen
    · simp only [dedupExcl, if_neg hmem]
      refine ⟨List.nodup_cons.mpr ⟨fun hcontra => ?_, (ih (seen ++ [a])).1⟩, ?_⟩
      · have := (ih (seen ++ [a])).2 a hcontra
        simp at this
      · intro s hs
        rcases List.mem_cons.mp hs with rfl | hs
        · exact hmem
        · intro hcontra
          exact (ih (seen ++ [a])).2 s hs (by simp [hcontra])

/-- Stable sorting by descending reranker score yields a list pairwise
sorted by non-increasing reranker score. -/
theorem insertionSort_rerank_sorted (results : List SearchChunk) :
    (List.insertionSort (fun a b => rerankD b ≤ rerankD a) results).Pairwise
      (fun a b => rerankD b ≤ rerankD a) := by
  haveI : IsTotal SearchChunk (fun a b => rerankD b ≤ rerankD a) :=
    ⟨fun a b => le_total (rerankD b) (rerankD a)⟩
  haveI : IsTrans SearchChunk (fun a b => rerankD b ≤ rerankD a) :=
    ⟨fun _ _ _ hab hbc => le_trans hbc hab⟩
  exact List.sorted_insertionSort _ results

/-- If every one of the `remaining` attempts from `attempt` on fails,
the loop emits the full remaining trace and re-raises the error of the
last attempt. -/
theorem retryFrom_all_fail {E R : Type} (oracle : Nat → Except E R) (err : Nat → E)
    (delay : Nat) :
    ∀ remaining attempt, 0 < remaining →
      (∀ i, attempt ≤ i → i < attempt + remaining → oracle i = Except.error (err i)) →
      ∀ lastError,
        retryFrom oracle delay remaining attempt lastError =
          (traceSpan delay remaining attempt,
            Except.error (err (attempt + remaining - 1))) := by
  intro remaining
  induction remaining with
  | zero =>
    intro attempt h
    omega
  | succ n ih =>
    intro attempt _ hfail lastError
    have hor : oracle attempt = Except.error (err attempt) :=
      hfail attempt le_rfl (by omega)
    rw [retryFrom, hor]
    by_cases hn : n = 0
    · subst hn
      simp [traceSpan]
    · simp only [if_neg hn]
      rw [ih (attempt + 1) (by omega)
        (fun i hi hi' => hfail i (by omega) (by omega)) (some (err attempt))]
      have hidx : attempt + 1 + n - 1 = attempt + (n + 1) - 1 := by omega
      rw [hidx]
      conv_rhs => rw [traceSpan]

/-- A trace span starting past attempt 0 has one sleep per attempt. -/
theorem sleepCount_traceSpan_pos (delay : Nat) :
    ∀ remaining attempt, 0 < attempt →
      sleepCount (traceSpan delay remaining attempt) = remaining := by
  intro remaining
  induction remaining with
  | zero =>
    intro attempt _
    simp [traceSpan, sleepCount]
  | succ n ih =>
    intro attempt h0
    rw [traceSpan]
    simp only [sleepCount, List.countP_append] at ih ⊢
    rw [ih (attempt + 1) (by omega)]
    simp [h0]
    omega

/-- The full expected trace has exactly `maxRetries - 1` sleeps: none
before attempt 0, one before every retry. -/
theorem sleepCount_expectedTrace (delay maxRetries : Nat) :
    sleepCount (expectedTrace delay maxRetries) = maxRetries - 1 := by
  cases maxRetries with
  | zero => simp [expectedTrace, traceSpan, sleepCount]
  | succ n =>
    rw [expectedTrace, traceSpan]
    simp only [sleepCount, List.countP_append]
    have h := sleepCount_traceSpan_pos delay n (0 + 1) (by omega)
    simp only [sleepCount] at h
    rw [h]
    simp

/-- Any value the retry loop returns successfully was produced by some
attempt of the oracle: properties of every oracle success carry over to
the loop's success result. -/
theorem retryFrom_ok_some {E R : Type} (oracle : Nat → Except E R)
    (delay : Nat) (Q : R → Prop)
    (hQ : ∀ i r, oracle i = Except.ok r → Q r) :
    ∀ remaining attempt lastError trace r,
      retryFrom oracle delay remaining attempt lastError =
        (trace, Except.ok (some r)) → Q r := by
  intro remaining
  induction remaining with
  | zero =>
    intro attempt lastError trace r h
    rw [retryFrom] at h
    cases lastError with
    | some e => simp at h
    | none => simp at h
  | succ n ih =>
    intro attempt lastError trace r h
    rw [retryFrom] at h
    cases ho : oracle attempt with
    | ok r' =>
      rw [ho] at h
      simp only [Prod.mk.injEq, Except.ok.injEq, Option.some.injEq] at h
      exact h.2 ▸ hQ attempt r' ho
    | error e =>
      rw [ho] at h
      by_cases hn : n = 0
      · simp [hn] at h
      · simp only [if_neg hn] at h
        have h2 : (retryFrom oracle delay n (attempt + 1) (some e)).2 =
            Except.ok (some r) := by
          have := congrArg Prod.snd h
          simpa using this
        exact ih (attempt + 1) (some e)
          (retryFrom oracle delay n (attempt + 1) (some e)).1 r
          (by rw [← h2])

/-- Claim C1: with `max_retries = N ≥ 1`, when every attempt raises, the
generation client emits attempt 0 first (no sleep before it), sleeps for
the fixed delay exactly once between consecutive attempts (N-1 sleeps in
total, as laid out by `expectedTrace`), and re-raises the exception of
the last attempt — no fallback response. -/
theorem llm_retry_fixed_delay_reraises_last (searchResults : List SearchChunk)
    (oracle : Nat → Except String String) (err : Nat → String)
    (delay maxRetries : Nat) (hN : 1 ≤ maxRetries)
    (hfail : ∀ i, i < maxRetries → oracle i = Except.error (err i)) :
    callLlm searchResults oracle delay maxRetries =
      (expectedTrace delay maxRetries, Except.error (err (maxRetries - 1))) ∧
    (expectedTrace delay maxRetries).head? = some (RetryEvent.attempt 0) ∧
    sleepCount (expectedTrace delay maxRetries) = maxRetries - 1 := by
  refine ⟨?_, ?_, sleepCount_expectedTrace delay maxRetries⟩
  · have h := retryFrom_all_fail
      (fun i => (oracle i).map (fun respContent =>
        ({ response := respContent,
           top_chunks := successTopChunks (queryAzureSearch searchResults 5) } :
          LlmResult)))
      err delay maxRetries 0 (by omega)
      (fun i _ hi => by
        simp only [hfail i (by omega : i < maxRetries), Except.map]) none
    simpa [callLlm, expectedTrace] using h
  · rw [expectedTrace]
    cases maxRetries with
    | zero => omega
    | succ n =>
      rw [traceSpan]
      simp

/-- Closed witness for the C1 theorem: two attempts, both failing, give
the trace `[attempt 0, sleep 7, attempt 1]` and re-raise the second
error. -/
theorem llm_retry_witness :
    (1 ≤ 2 ∧ ∀ i, i < 2 →
      (fun j => (Except.error (Nat.repr j) : Except String String)) i =
        Except.error ((fun j => Nat.repr j) i)) ∧
    callLlm [] (fun j => Except.error (Nat.repr j)) 7 2 =
      (expectedTrace 7 2, Except.error (Nat.repr 1)) ∧
    (expectedTrace 7 2).head? = some (RetryEvent.attempt 0) ∧
    sleepCount (expectedTrace 7 2) = 1 :=
  ⟨⟨by decide, fun i _ => rfl⟩,
    llm_retry_fixed_delay_reraises_last [] (fun j => Except.error (Nat.repr j))
      (fun j => Nat.repr j) 7 2 (by decide) (fun i _ => rfl)⟩

/-- Claim C2 is a code bug: for any NON-empty history returned by the
history fetch, prompt assembly raises `KeyError: role` instead of
appending each historical turn as its own role-tagged message — the
fetch returns session-group dicts keyed `session_id`/`messages`, not
role-tagged turn dicts.  Evaluated here on a store with one session
(`s1`) holding one user turn: the fetch returns one session group and
the assembly fails; no role-tagged history message is ever produced. -/
theorem history_prompt_keyerror :
    getLastMessagesFromCosmos true (Except.ok [⟨"s1", "t1"⟩])
        (fun _ => Except.ok [⟨"m1", "user", "hello", "t1"⟩]) 5 =
      [⟨"s1", [⟨"m1", "user", "hello", "t1"⟩]⟩] ∧
    buildChatPrompt [⟨"s1", [⟨"m1", "user", "hello", "t1"⟩]⟩] "PROMPT" =
      Except.error "KeyError: role" :=
  ⟨rfl, rfl⟩

/-- Claim C3: for every successful generation call, the attribution list
returned to the caller contains at most 2 entries, the entries are
ordered by non-increasing reranker score, and each entry's search_score
and reranker_score are rounded to 4 decimal digits (an integer multiple
of 1/10000). -/
theorem generation_attributions_bounded_sorted_rounded
    (searchResults : List SearchChunk) (oracle : Nat → Except String String)
    (delay maxRetries : Nat) (trace : List RetryEvent) (r : LlmResult)
    (h : callLlm searchResults oracle delay maxRetries =
      (trace, Except.ok (some r))) :
    r.top_chunks.length ≤ 2 ∧
    r.top_chunks.Pairwise (fun a b => b.reranker_score ≤ a.reranker_score) ∧
    ∀ a ∈ r.top_chunks,
      (∃ k : ℤ, a.search_score = (k : ℚ) / 10000) ∧
      (∃ k : ℤ, a.reranker_score = (k : ℚ) / 10000) := by
  have hchunks : r.top_chunks =
      successTopChunks (queryAzureSearch searchResults 5) := by
    refine retryFrom_ok_some _ delay
      (fun x => x.top_chunks = successTopChunks (queryAzureSearch searchResults 5))
      ?_ maxRetries 0 none trace r h
    intro i x hx
    cases ho : oracle i with
    | ok s =>
      rw [ho] at hx
      simp only [Except.map, Except.ok.injEq] at hx
      rw [← hx]
    | error e =>
      rw [ho] at hx
      simp [Except.map] at hx
  rw [hchunks]
  refine ⟨?_, ?_, ?_⟩
  · rw [successTopChunks, List.length_map]
    exact List.length_take_le _ _
  · rw [successTopChunks]
    refine List.pairwise_map.mpr ?_
    have hsorted : (queryAzureSearch searchResults 5).Pairwise
        (fun a b => rerankD b ≤ rerankD a) :=
      List.Pairwise.sublist (List.take_sublist _ _)
        (insertionSort_rerank_sorted searchResults)
    have htake : ((queryAzureSearch searchResults 5).take 2).Pairwise
        (fun a b => rerankD b ≤ rerankD a) :=
      List.Pairwise.sublist (List.take_sublist _ _) hsorted
    exact htake.imp (fun hab => round4_mono hab)
  · intro a ha
    rw [successTopChunks] at ha
    obtain ⟨c, _, rfl⟩ := List.mem_map.mp ha
    exact ⟨⟨round ((c.searchScore.getD 0) * 10000), rfl⟩,
      ⟨round ((rerankD c) * 10000), rfl⟩⟩

/-- Closed witness for the C3 theorem on scenario A: exactly two
attributions, led by the 0.9 chunk, scores rounded. -/
theorem generation_attributions_witness :
    callLlm scenarioAChunks (fun _ => Except.ok "answer") 2 3 =
      ([RetryEvent.attempt 0], Except.ok (some scenarioAResult)) ∧
    (scenarioAResult.top_chunks.length ≤ 2 ∧
      scenarioAResult.top_chunks.Pairwise
        (fun a b => b.reranker_score ≤ a.reranker_score) ∧
      ∀ a ∈ scenarioAResult.top_chunks,
        (∃ k : ℤ, a.search_score = (k : ℚ) / 10000) ∧
        (∃ k : ℤ, a.reranker_score = (k : ℚ) / 10000)) :=
  have h : callLlm scenarioAChunks (fun _ => Except.ok "answer") 2 3 =
      ([RetryEvent.attempt 0], Except.ok (some scenarioAResult)) := by
    norm_num [callLlm, retryFrom, queryAzureSearch, scenarioAChunks,
      scenarioAResult, successTopChunks, mkAttribution, rerankD, round4,
      round_eq, List.insertionSort, List.orderedInsert, Except.map]
  ⟨h, generation_attributions_bounded_sorted_rounded scenarioAChunks
    (fun _ => Except.ok "answer") 2 3 [RetryEvent.attempt 0]
    scenarioAResult h⟩

/-- Claim C4: for every result set returned by the search oracle, the
retrieval client re-sorts the returned results locally by descending
reranker score and then truncates the sorted list to at most `topK`
entries before returning it. -/
theorem search_resorts_and_truncates (results : List SearchChunk) (topK : Nat) :
    ∃ sortedResults : List SearchChunk,
      results.Perm sortedResults ∧
      sortedResults.Pairwise (fun a b => rerankD b ≤ rerankD a) ∧
      queryAzureSearch results topK = sortedResults.take topK ∧
      (queryAzureSearch results topK).length ≤ topK :=
  ⟨List.insertionSort (fun a b => rerankD b ≤ rerankD a) results,
    (List.perm_insertionSort _ results).symm, insertionSort_rerank_sorted results,
    rfl, List.length_take_le _ _⟩

/-- Claim C5: the user turn is appended to the ledger before the
generation call begins and the assistant turn is appended only after
generation completes (the event trace of every outcome starts with the
user append followed by the generation call, and the user turn is in the
final ledger in every outcome); hence if generation fails on every
attempt, the caller receives the terminal 500 failure, the ledger is the
old ledger plus exactly the user turn, and no assistant turn was
appended. -/
theorem chat_user_turn_durable_on_failure (req : ChatRequest)
    (gen : Except String (Option LlmResult))
    (searchResults : List SearchChunk) (oracle : Nat → Except String String)
    (err : Nat → String) (delay maxRetries : Nat)
    (userUuid userTs assistantUuid assistantTs elapsedStr : String)
    (elapsed : ℚ) (store : List StoredItem) (hN : 1 ≤ maxRetries)
    (hfail : ∀ i, i < maxRetries → oracle i = Except.error (err i)) :
    ((chat req gen userUuid userTs assistantUuid assistantTs elapsedStr
        elapsed store).1).take 2 =
      [ChatEvent.appendTurn "user", ChatEvent.generationCall] ∧
    mkUserTurn req userUuid userTs ∈
      (chat req gen userUuid userTs assistantUuid assistantTs elapsedStr
        elapsed store).2.1 ∧
    chat req (callLlm searchResults oracle delay maxRetries).2 userUuid userTs
        assistantUuid assistantTs elapsedStr elapsed store =
      ([ChatEvent.appendTurn "user", ChatEvent.generationCall],
        store ++ [mkUserTurn req userUuid userTs],
        ChatOutcome.jsonError 500 (err (maxRetries - 1))) := by
  have hgen : (callLlm searchResults oracle delay maxRetries).2 =
      Except.error (err (maxRetries - 1)) := by
    have h := retryFrom_all_fail
      (fun i => (oracle i).map (fun respContent =>
        ({ response := respContent,
           top_chunks := successTopChunks (queryAzureSearch searchResults 5) } :
          LlmResult)))
      err delay maxRetries 0 (by omega)
      (fun i _ hi => by
        simp only [hfail i (by omega : i < maxRetries), Except.map]) none
    have h2 := congrArg Prod.snd h
    simpa [callLlm] using h2
  refine ⟨?_, ?_, ?_⟩
  · cases gen with
    | error e => rfl
    | ok o => cases o with
      | none => rfl
      | some r => rfl
  · cases gen with
    | error e => simp [chat]
    | ok o => cases o with
      | none => simp [chat]
      | some r => simp [chat]
  · rw [hgen]
    rfl

/-- Closed witness for the C5 theorem: a concrete request against an
empty ledger and a generation oracle failing on all 3 attempts leaves
exactly the user turn in the ledger and returns the 500 failure. -/
theorem chat_user_turn_witness :
    ((chat ⟨"hi", "sess", "alice", []⟩ (Except.error "boom") "u1" "t1" "u2" "t2"
        "0.5" 0 []).1).take 2 =
      [ChatEvent.appendTurn "user", ChatEvent.generationCall] ∧
    mkUserTurn ⟨"hi", "sess", "alice", []⟩ "u1" "t1" ∈
      (chat ⟨"hi", "sess", "alice", []⟩ (Except.error "boom") "u1" "t1" "u2" "t2"
        "0.5" 0 []).2.1 ∧
    chat ⟨"hi", "sess", "alice", []⟩
        (callLlm [] (fun _ => Except.error "boom") 2 3).2 "u1" "t1" "u2" "t2"
        "0.5" 0 [] =
      ([ChatEvent.appendTurn "user", ChatEvent.generationCall],
        [] ++ [mkUserTurn ⟨"hi", "sess", "alice", []⟩ "u1" "t1"],
        ChatOutcome.jsonError 500 "boom") :=
  chat_user_turn_durable_on_failure ⟨"hi", "sess", "alice", []⟩
    (Except.error "boom") [] (fun _ => Except.error "boom")
    (fun _ => "boom") 2 3 "u1" "t1" "u2" "t2" "0.5" 0 []
    (by decide) (fun i _ => rfl)

/-- Claim C6: a feedback value that is neither positive nor negative is
rejected as a validation error (HTTP 400) before any store access —
independently of whether the store is reachable — and leaves the store
unchanged; and a valid request whose turn identifier matches no stored
turn fails with a not-found error (HTTP 404) distinct from both the
validation error (400) and the store error (500). -/
theorem feedback_validation_before_store_and_not_found_distinct
    (storeOk : Bool) (req : FeedbackRequest) (store : List StoredItem) :
    (req.feedback ∉ (["positive", "negative"] : List String) →
      updateFeedback storeOk req store =
        (UFResponse.jsonError 400 "Invalid input", store)) ∧
    (req.id ≠ "" → req.feedback ∈ (["positive", "negative"] : List String) →
      req.sessionId ≠ "" →
      store.filter (fun c => decide (c.id = req.id)) = [] →
      updateFeedback true req store =
        (UFResponse.jsonError 404 "Message not found in database", store) ∧
      UFResponse.jsonError 404 "Message not found in database" ≠
        UFResponse.jsonError 400 "Invalid input" ∧
      UFResponse.jsonError 404 "Message not found in database" ≠
        UFResponse.jsonError 500 "Failed to update feedback") := by
  constructor
  · intro hfb
    have hc : req.id = "" ∨
        req.feedback ∉ (["positive", "negative"] : List String) ∨
        req.sessionId = "" := Or.inr (Or.inl hfb)
    simp only [updateFeedback, if_pos hc]
  · intro hid hfb hsid hfilter
    have hc : ¬(req.id = "" ∨
        req.feedback ∉ (["positive", "negative"] : List String) ∨
        req.sessionId = "") := by
      push_neg
      exact ⟨hid, hfb, hsid⟩
    refine ⟨?_, by decide, by decide⟩
    simp only [updateFeedback, if_neg hc, hfilter]
    rfl

/-- Closed witness for the C6 theorem at concrete inputs: the invalid
feedback value "meh" is rejected with the store untouched, and a valid
request against a store lacking the id gets the 404 response. -/
theorem feedback_validation_witness :
    (("meh" : String) ∉ (["positive", "negative"] : List String) ∧
      updateFeedback false ⟨"m1", "meh", "s1"⟩ [] =
        (UFResponse.jsonError 400 "Invalid input", [])) ∧
    (updateFeedback true ⟨"m1", "positive", "s1"⟩ [] =
        (UFResponse.jsonError 404 "Message not found in database", [])) := by
  refine ⟨⟨by decide, ?_⟩, ?_⟩
  · exact (feedback_validation_before_store_and_not_found_distinct false
      ⟨"m1", "meh", "s1"⟩ []).1 (by decide)
  · exact ((feedback_validation_before_store_and_not_found_distinct true
      ⟨"m1", "positive", "s1"⟩ []).2 (by decide) (by decide) (by decide)
      (by decide)).1

/-- Claim C7: if the history store is disabled or the session-id query
fails, the history fetch returns an empty list to its caller rather than
raising an error. -/
theorem history_fetch_best_effort (cosmosEnabled : Bool)
    (sessionQuery : Except String (List SessionRow))
    (messagesQuery : String → Except String (List MessageRow)) (limit : Nat)
    (h : cosmosEnabled = false ∨ ∃ e, sessionQuery = Except.error e) :
    getLastMessagesFromCosmos cosmosEnabled sessionQuery messagesQuery limit = [] := by
  rcases h with h | ⟨e, h⟩
  · simp [getLastMessagesFromCosmos, h]
  · cases cosmosEnabled with
    | false => simp [getLastMessagesFromCosmos]
    | true => simp [getLastMessagesFromCosmos, getLatestSessionIds, h]

/-- Closed witness for the C7 theorem: with the store disabled the fetch
returns the empty history, and with the store enabled but the session
query raising it also returns the empty history. -/
theorem history_fetch_best_effort_witness :
    ((false = false) ∨
      ∃ e, (Except.ok [] : Except String (List SessionRow)) = Except.error e) ∧
    getLastMessagesFromCosmos false (Except.ok []) (fun _ => Except.ok []) 5 = [] ∧
    getLastMessagesFromCosmos true (Except.error "timeout")
      (fun _ => Except.ok []) 5 = [] :=
  ⟨Or.inl rfl,
    history_fetch_best_effort false (Except.ok []) (fun _ => Except.ok []) 5
      (Or.inl rfl),
    history_fetch_best_effort true (Except.error "timeout")
      (fun _ => Except.ok []) 5 (Or.inr ⟨"timeout", rfl⟩)⟩

/-- Claim C8 counterexample: with session limit 0 and a single row, the
code returns one session identifier — more than the limit — because the
break test `len(unique_sessions) >= limit` only runs after an id has
already been appended. -/
theorem session_limit_zero_counterexample :
    getLatestSessionIds true (Except.ok [⟨"s1", "t1"⟩]) 0 = some ["s1"] ∧
    0 < ((getLatestSessionIds true (Except.ok [⟨"s1", "t1"⟩]) 0).getD []).length :=
  ⟨rfl, by decide⟩

/-- Claim C8 (amended: for session limits of at least 1): the session-id
fetch returns at most `limit` identifiers, never returns the same
identifier twice, and equals the order-preserving dedup of the full row
list truncated to `limit` — deduplication before the limit. -/
theorem session_ids_dedup_before_limit (rows : List SessionRow) (limit : Nat)
    (hlim : 1 ≤ limit) :
    getLatestSessionIds true (Except.ok rows) limit =
      some ((dedupExcl [] (rows.map (fun r => r.session_id))).take limit) ∧
    ∀ l, getLatestSessionIds true (Except.ok rows) limit = some l →
      l.length ≤ limit ∧ l.Nodup := by
  have hmain : sessionLoop limit rows [] =
      (dedupExcl [] (rows.map (fun r => r.session_id))).take limit := by
    have h := sessionLoop_eq_dedup_take limit rows []
      (by simpa using Nat.lt_of_lt_of_le Nat.zero_lt_one hlim)
    simpa using h
  refine ⟨by simp [getLatestSessionIds, hmain], ?_⟩
  intro l hl
  have hleq : l = (dedupExcl [] (rows.map (fun r => r.session_id))).take limit := by
    simp only [getLatestSessionIds, if_neg (by simp : ¬(true = false)), hmain,
      Option.some.injEq] at hl
    exact hl.symm
  subst hleq
  exact ⟨List.length_take_le _ _,
    ((dedupExcl_nodup _ []).1).sublist (List.take_sublist _ _)⟩

/-- Closed witness for the amended C8 theorem: four rows over three
distinct sessions with limit 2 yield exactly the first two distinct
session ids. -/
theorem session_ids_dedup_before_limit_witness :
    (1 ≤ 2) ∧
    getLatestSessionIds true
      (Except.ok [⟨"s1", "t3"⟩, ⟨"s1", "t2"⟩, ⟨"s2", "t1"⟩, ⟨"s3", "t0"⟩]) 2 =
      some ["s1", "s2"] :=
  ⟨by decide,
    (session_ids_dedup_before_limit
      [⟨"s1", "t3"⟩, ⟨"s1", "t2"⟩, ⟨"s2", "t1"⟩, ⟨"s3", "t0"⟩] 2 (by decide)).1⟩

/-- Claim C9: `setFeedback` is idempotent — for every stored turn and every
valid feedback value, applying the same feedback value twice in
succession yields the same final store state as applying it once. -/
theorem setFeedback_idempotent (req : FeedbackRequest) (store : List StoredItem)
    (hid : req.id ≠ "")
    (hfb : req.feedback ∈ (["positive", "negative"] : List String))
    (hsid : req.sessionId ≠ "")
    (hstored : store.filter (fun c => decide (c.id = req.id)) ≠ []) :
    (updateFeedback true req (updateFeedback true req store).2).2 =
      (updateFeedback true req store).2 := by
  have hc : ¬(req.id = "" ∨
      req.feedback ∉ (["positive", "negative"] : List String) ∨
      req.sessionId = "") := by
    push_neg
    exact ⟨hid, hfb, hsid⟩
  obtain ⟨item, rest, hfilter⟩ : ∃ item rest,
      store.filter (fun c => decide (c.id = req.id)) = item :: rest := by
    cases h : store.filter (fun c => decide (c.id = req.id)) with
    | nil => exact absurd h hstored
    | cons a l => exact ⟨a, l, rfl⟩
  have hitem : item.id = req.id := by
    have hmem : item ∈ store.filter (fun c => decide (c.id = req.id)) := by
      rw [hfilter]
      exact List.mem_cons_self _ _
    exact of_decide_eq_true (List.mem_filter.mp hmem).2
  have h1 := updateFeedback_found req store item rest hc hfilter
  rw [h1]
  have hfilter2 :
      (store.map (fun c =>
          if c.id = req.id then { item with feedback := some req.feedback }
          else c)).filter (fun c => decide (c.id = req.id)) =
        ({ item with feedback := some req.feedback } : StoredItem) ::
          rest.map (fun c =>
            if c.id = req.id then { item with feedback := some req.feedback }
            else c) := by
    rw [List.filter_map]
    have hpt : store.filter ((fun c => decide (c.id = req.id)) ∘
        (fun c =>
          if c.id = req.id then { item with feedback := some req.feedback }
          else c)) = store.filter (fun c => decide (c.id = req.id)) := by
      apply List.filter_congr
      intro c _
      by_cases hcid : c.id = req.id
      · simp [Function.comp, hcid, hitem]
      · simp [Function.comp, hcid]
    rw [hpt, hfilter, List.map_cons, if_pos hitem]
  have h2 := updateFeedback_found req
    (store.map (fun c =>
      if c.id = req.id then { item with feedback := some req.feedback }
      else c))
    ({ item with feedback := some req.feedback } : StoredItem)
    (rest.map (fun c =>
      if c.id = req.id then { item with feedback := some req.feedback }
      else c)) hc hfilter2
  rw [h2]
  rw [List.map_map]
  apply List.map_congr_left
  intro c _
  by_cases hcid : c.id = req.id
  · simp [Function.comp, hcid, hitem]
  · simp [Function.comp, hcid]

/-- Closed witness for the C9 theorem: updating feedback twice on a
concrete one-item store equals updating it once. -/
theorem setFeedback_idempotent_witness :
    (("m1" : String) ≠ "" ∧
      ("positive" : String) ∈ (["positive", "negative"] : List String) ∧
      ("s1" : String) ≠ "" ∧
      ([⟨"m1", "s", "u", [], "assistant", "hi", "t", none, []⟩] :
          List StoredItem).filter
        (fun c => decide (c.id = ("m1" : String))) ≠ []) ∧
    (updateFeedback true ⟨"m1", "positive", "s1"⟩
        (updateFeedback true ⟨"m1", "positive", "s1"⟩
          [⟨"m1", "s", "u", [], "assistant", "hi", "t", none, []⟩]).2).2 =
      (updateFeedback true ⟨"m1", "positive", "s1"⟩
        [⟨"m1", "s", "u", [], "assistant", "hi", "t", none, []⟩]).2 :=
  ⟨⟨by decide, by decide, by decide, by decide⟩,
    setFeedback_idempotent ⟨"m1", "positive", "s1"⟩
      [⟨"m1", "s", "u", [], "assistant", "hi", "t", none, []⟩]
      (by decide) (by decide) (by decide) (by decide)⟩

/-- Claim C10: the feedback update requires a non-empty sessionId to pass
validation, but never uses its value afterwards: for every turn
identifier, every valid feedback value and any two non-empty sessionId
strings, the handler produces the same response and the same store
state; with an empty sessionId it is rejected as a validation error. -/
theorem feedback_sessionId_validated_but_unused
    (storeOk : Bool) (id fb s1 s2 : String) (store : List StoredItem)
    (hfb : fb ∈ (["positive", "negative"] : List String))
    (h1 : s1 ≠ "") (h2 : s2 ≠ "") :
    updateFeedback storeOk ⟨id, fb, s1⟩ store =
      updateFeedback storeOk ⟨id, fb, s2⟩ store ∧
    updateFeedback storeOk ⟨id, fb, ""⟩ store =
      (UFResponse.jsonError 400 "Invalid input", store) := by
  constructor
  · by_cases hid : id = ""
    · simp [updateFeedback, hid]
    · simp [updateFeedback, hid, h1, h2, hfb]
  · simp [updateFeedback]

/-- Closed witness for the C10 theorem: with sessionIds "a" and "b" the
handler behaves identically on a concrete one-item store, and the empty
sessionId is rejected. -/
theorem feedback_sessionId_unused_witness :
    (("positive" : String) ∈ (["positive", "negative"] : List String) ∧
      ("a" : String) ≠ "" ∧ ("b" : String) ≠ "") ∧
    (updateFeedback true ⟨"m1", "positive", "a"⟩
        [⟨"m1", "s", "u", [], "user", "hi", "t", none, []⟩] =
      updateFeedback true ⟨"m1", "positive", "b"⟩
        [⟨"m1", "s", "u", [], "user", "hi", "t", none, []⟩] ∧
     updateFeedback true ⟨"m1", "positive", ""⟩
        [⟨"m1", "s", "u", [], "user", "hi", "t", none, []⟩] =
      (UFResponse.jsonError 400 "Invalid input",
        [⟨"m1", "s", "u", [], "user", "hi", "t", none, []⟩])) :=
  ⟨⟨by decide, by decide, by decide⟩,
    feedback_sessionId_validated_but_unused true "m1" "positive" "a" "b"
      [⟨"m1", "s", "u", [], "user", "hi", "t", none, []⟩]
      (by decide) (by decide) (by decide)⟩

end AzureChatbot
